import Mathlib

/-!
Verification of `epoch_calculator.py` (Monkellie/epochcalc).

This file shallowly embeds the program's observable logic in Lean:

* `EpochCalculator.calculate_epochs` — the four-field epoch form, with
  Python's `int()` parsing modelled by `pyInt` (ASCII digits, optional
  sign, surrounding whitespace, single underscores between digits),
  Python's float division by `pyFloatDiv` (the exact quotient correctly
  rounded to the nearest IEEE-754 binary64 double, ties to even, sign bit
  kept), and `"{:.2f}"` by `fmtFixed2` (round-half-even two-decimal
  rendering of the double's exact value, as CPython's correctly rounded
  float formatting produces).
* `ImageLoaderThread_run` — the background directory scan with its
  50-image cap; the emitted boolean is the code's `all_loaded` flag,
  whose negation is the spec's `truncated` flag.
* `find_matching_dataset_dirs` / `on_directory_selected` — the dataset
  folder resolver.
* `load_and_cache_image` / `display_images` / `update_images` — the
  thumbnail cache and grid renderer, with image decoding abstracted by
  a `decode : String → Option α` oracle (`none` models a `QImageReader`
  read that yields a null image) and scaling by `scale : α → α`.
* `MainWindow.import_theme` — the theme loader.

File-system effects (directory listings, file reads) are passed in as
explicit values; GUI side effects are modelled by the strings/lists the
code writes into widgets.
-/

namespace EpochCalc

/-! ### Python `int()` parsing (ASCII fragment) -/

/-- Digits-with-underscores accumulator for `pyInt`: accepts a non-empty
ASCII digit sequence in which each underscore is surrounded by digits
(Python's numeric-literal underscore rule). The head of the input list has
already been checked not to be an underscore. -/
def pyDigitsAux : Nat → List Char → Option Nat
  | acc, [] => some acc
  | acc, '_' :: c :: rest =>
    if c.isDigit then pyDigitsAux (acc * 10 + (c.toNat - '0'.toNat)) rest else none
  | acc, c :: rest =>
    if c.isDigit then pyDigitsAux (acc * 10 + (c.toNat - '0'.toNat)) rest else none

/-- Parse a non-empty ASCII digit sequence with optional single underscores
between digits, as Python's `int()` accepts after sign stripping. -/
def pyDigits : List Char → Option Nat
  | [] => none
  | '_' :: _ => none
  | l => pyDigitsAux 0 l

/-- Model of Python `int(s)` on ASCII text: strip surrounding whitespace,
allow one optional `+`/`-` sign, then digits (with underscores). Returns
`none` where Python raises `ValueError`. -/
def pyInt (s : String) : Option Int :=
  let l := ((s.data.dropWhile Char.isWhitespace).reverse.dropWhile Char.isWhitespace).reverse
  match l with
  | '+' :: rest => (pyDigits rest).map Int.ofNat
  | '-' :: rest => (pyDigits rest).map (fun n => -(n : Int))
  | rest => (pyDigits rest).map Int.ofNat

/-- Model of `int(entry.text()) if entry.text() else default`: a blank field
is truthy-false in Python and yields `default` without parsing; non-blank
text is parsed by `pyInt` and `none` models the raised `ValueError`. -/
def parseField (text : String) (default : Int) : Option Int :=
  if text = "" then some default else pyInt text

/-! ### Fixed-point formatting (`"{:.2f}"`) -/

/-- Decimal digit characters of `n`, most significant first, prepended to
`acc`. -/
def natDecimalGo (n : Nat) (acc : List Char) : List Char :=
  if n < 10 then Nat.digitChar (n % 10) :: acc
  else natDecimalGo (n / 10) (Nat.digitChar (n % 10) :: acc)
termination_by n
decreasing_by exact Nat.div_lt_self (by omega) (by omega)

/-- Decimal digit characters of `n`, most significant first. -/
def natDecimal (n : Nat) : List Char :=
  natDecimalGo n []

/-- Floor of a rational as an integer (Python's `math.floor`,
computable). -/
def qfloor (q : ℚ) : ℤ := q.num / (q.den : ℤ)

/-- Round a rational to the nearest integer, ties to even — the rounding
used when formatting a value with `"{:.2f}"`. -/
def roundHalfEven (q : ℚ) : ℤ :=
  let f := qfloor q
  let r := q - (f : ℚ)
  if r < 1/2 then f
  else if 1/2 < r then f + 1
  else if f % 2 = 0 then f else f + 1

/-- Floor of the base-2 logarithm of `|q|` for a non-zero rational,
computed from the bit lengths of numerator and denominator. -/
def qlog2 (q : ℚ) : ℤ :=
  let c : ℤ := (Nat.log2 q.num.natAbs : ℤ) - (Nat.log2 q.den : ℤ)
  if (2 : ℚ) ^ c ≤ |q| then c else c - 1

/-- The exact value of the IEEE-754 binary64 double nearest to `q`
(round to nearest, ties to even): `q` is rounded to the nearest multiple
of its ulp, `2 ^ (⌊log₂ |q|⌋ - 52)` in the normal range and `2 ^ (-1074)`
in the subnormal range. Faithful for `|q| < 2 ^ 1024`; the overflow
region, where CPython raises `OverflowError` instead of producing a
float, is outside the model. -/
def roundToDouble (q : ℚ) : ℚ :=
  if q = 0 then 0
  else
    let u : ℤ := max (qlog2 q - 52) (-1074)
    (roundHalfEven (q / 2 ^ u) : ℚ) * 2 ^ u

/-- A finite Python float: the sign bit and the exact (non-negative)
rational value of its magnitude. A negative value that underflows to zero
keeps `neg = true`, modelling the float `-0.0`. -/
structure PyFloat where
  neg : Bool
  mag : ℚ
deriving DecidableEq

/-- The double nearest to an exact rational, keeping the sign bit. -/
def floatOfRat (q : ℚ) : PyFloat :=
  ⟨decide (q < 0), roundToDouble |q|⟩

/-- Model of CPython `int.__truediv__` (the `/` in
`(steps * batch) / (images * repeats)`): the exact quotient correctly
rounded to a binary64 double. The `OverflowError` domain
(`|quotient|` at the top of the double range) is outside the model. -/
def pyFloatDiv (a b : ℤ) : PyFloat :=
  floatOfRat ((a : ℚ) / (b : ℚ))

/-- Model of Python's `f"{x:.2f}"` on a finite double: the double's exact
magnitude scaled by 100 and rounded half-to-even (CPython formats floats
by correctly rounded decimal conversion; a tie arises when the double's
value is an exact half-cent, e.g. `0.125`), rendered with exactly two
digits after the decimal point, with `-` prefixed exactly when the sign
bit is set. -/
def fmtFixed2 (x : PyFloat) : String :=
  (if x.neg then "-" else "")
    ++ String.mk (natDecimal ((roundHalfEven (x.mag * 100)).toNat / 100))
    ++ "." ++ String.mk [Nat.digitChar ((roundHalfEven (x.mag * 100)).toNat / 10 % 10),
        Nat.digitChar ((roundHalfEven (x.mag * 100)).toNat % 10)]

/-! ### `EpochCalculator.calculate_epochs`

The source parses the four fields in order inside one `try`; the first
`ValueError` jumps to the `except` branch. Blank images/repeats/batch
default to 0, blank steps defaults to 2000. -/

/-- The text `calculate_epochs` writes into `result_label`, as a function
of the four entry texts. -/
def calculate_epochs (images_text repeats_text batch_text steps_text : String) : String :=
  match parseField images_text 0 with
  | none => "Invalid input. Enter integers only."
  | some images =>
    match parseField repeats_text 0 with
    | none => "Invalid input. Enter integers only."
    | some repeats =>
      match parseField batch_text 0 with
      | none => "Invalid input. Enter integers only."
      | some batch =>
        match parseField steps_text 2000 with
        | none => "Invalid input. Enter integers only."
        | some steps =>
          if images > 0 ∧ repeats > 0 ∧ batch > 0 then
            "Optimal Epochs: "
              ++ fmtFixed2 (pyFloatDiv (steps * batch) (images * repeats))
          else
            "Enter valid positive integers."

/-- Model of `EpochCalculator.update_image_count`: the text written into the images
entry (`str(image_count)`), which re-triggers `calculate_epochs`. -/
def update_image_count (image_count : Nat) : String := toString image_count

/-! ### Paths and the directory scan -/

/-- Suffix test on strings, character by character (`str.endswith` for
ASCII text). -/
def strEndsWith (s suffix : String) : Bool :=
  List.isSuffixOf suffix.data s.data

/-- Prefix test on strings, character by character. -/
def strStartsWith (s pre : String) : Bool :=
  List.isPrefixOf pre.data s.data

/-- Character-wise ASCII lowercasing (`str.lower` restricted to ASCII). -/
def strLower (s : String) : String :=
  String.mk (s.data.map Char.toLower)

/-- Model of `os.path.join(a, b)` on POSIX paths (no drive letters): an absolute
second component replaces the first; otherwise a single separator is
inserted unless one is already present. -/
def osPathJoin (a b : String) : String :=
  if strStartsWith b "/" then b
  else if a = "" then b
  else if strEndsWith a "/" then a ++ b
  else a ++ "/" ++ b

/-- The cap `MAX_IMAGES_TO_DISPLAY`. -/
def MAX_IMAGES_TO_DISPLAY : Nat := 50

/-- The filename filter of `ImageLoaderThread.run`:
`f.lower().endswith(('.png', '.jpg', '.jpeg', '.bmp'))` (ASCII
lowercasing). -/
def isImageFileName (f : String) : Bool :=
  strEndsWith (strLower f) ".png" || strEndsWith (strLower f) ".jpg"
    || strEndsWith (strLower f) ".jpeg" || strEndsWith (strLower f) ".bmp"

/-- Model of `ImageLoaderThread.run`, as a function of the directory path and its
listing (`os.listdir`). It emits `(paths, all_loaded)` on
`image_loaded_signal`: the qualifying paths capped at
`MAX_IMAGES_TO_DISPLAY`, with `all_loaded = false` exactly when the cap
truncated the list. -/
def ImageLoaderThread_run (directory : String) (listing : List String) :
    List String × Bool :=
  let loaded_image_paths :=
    (listing.filter isImageFileName).map (fun f => osPathJoin directory f)
  if loaded_image_paths.length > MAX_IMAGES_TO_DISPLAY then
    (loaded_image_paths.take MAX_IMAGES_TO_DISPLAY, false)
  else
    (loaded_image_paths, true)

/-- The spec-level `truncated` flag of a scan result: the negation of the
emitted `all_loaded` completion flag (`update_images` shows the "Too many
images" state exactly when `all_loaded` is false). -/
def truncatedFlag (result : List String × Bool) : Bool := !result.2

/-! ### Dataset folder resolver -/

/-- The fixed alias list `DATASET_FOLDER_NAMES`. -/
def DATASET_FOLDER_NAMES : List String := ["AI", "Dataset", "DATASETS"]

/-- One entry of a directory listing, with the result of
`os.path.isdir(os.path.join(directory, d))`. -/
structure DirEntry where
  name : String
  isDir : Bool
deriving DecidableEq

/-- Model of `ImageViewer.find_matching_dataset_dirs`: the names of immediate
subdirectories whose name equals one of `DATASET_FOLDER_NAMES`
case-insensitively. -/
def find_matching_dataset_dirs (listing : List DirEntry) : List String :=
  (listing.filter
      (fun d => d.isDir && DATASET_FOLDER_NAMES.any (fun n => strLower d.name = strLower n))).map
    (fun d => d.name)

/-- Model of `ImageViewer.on_directory_selected`: the directory subsequently
scanned after the user confirms `selected_directory` in the dialog. The
source joins the selected name onto `SCRIPT_DIR`, not onto the originally
chosen directory. -/
def on_directory_selected (SCRIPT_DIR selected_directory : String) : String :=
  osPathJoin SCRIPT_DIR selected_directory

/-! ### Thumbnail cache and grid -/

/-- A `QPixmap` value: either the null pixmap (`QPixmap()`) or a bitmap
payload. -/
inductive QPixmap (α : Type) where
  | null
  | pix (bitmap : α)
deriving DecidableEq

/-- The module-global `image_cache` dict, as an insertion-ordered
association list from path to stored pixmap. -/
abbrev Cache (α : Type) : Type := List (String × QPixmap α)

/-- Dict membership/lookup (`img_path in image_cache`,
`image_cache[img_path]`). -/
def cacheLookup {α : Type} (cache : Cache α) (p : String) : Option (QPixmap α) :=
  match cache with
  | [] => none
  | (q, px) :: rest => if q = p then some px else cacheLookup rest p

/-- Model of `ImageViewer.load_and_cache_image`, with `decode` standing for
`QImageReader(img_path).read()` (`none` models a null image, which the
source turns into a raised and caught exception) and `scale` for
`image.scaled(1920, 1080, Qt.KeepAspectRatio)` followed by
`QPixmap.fromImage`. Returns the pixmap handed to the caller, the cache
after the call, the number of decode operations performed, and the lines
printed. -/
def load_and_cache_image {α : Type} (decode : String → Option α) (scale : α → α)
    (cache : Cache α) (img_path : String) :
    QPixmap α × Cache α × Nat × List String :=
  match cacheLookup cache img_path with
  | some px => (px, cache, 0, [])
  | none =>
    match decode img_path with
    | none =>
      (QPixmap.null, cache, 1,
        ["Error loading image " ++ img_path ++ ": Failed to load image"])
    | some image =>
      let pixmap := QPixmap.pix (scale image)
      (pixmap, cache ++ [(img_path, pixmap)], 1, [])

/-- Model of `ImageViewer.display_images`: renders the paths in order, skipping
those whose pixmap is null (`continue`). Returns the rendered
`(path, bitmap)` entries in grid order, the cache after the pass, and the
accumulated log lines. -/
def display_images {α : Type} (decode : String → Option α) (scale : α → α)
    (cache : Cache α) (paths : List String) :
    List (String × α) × Cache α × List String :=
  match paths with
  | [] => ([], cache, [])
  | img_path :: rest =>
    let r := load_and_cache_image decode scale cache img_path
    let rec_result := display_images decode scale r.2.1 rest
    match r.1 with
    | QPixmap.null => (rec_result.1, rec_result.2.1, r.2.2.2 ++ rec_result.2.2)
    | QPixmap.pix a =>
      ((img_path, a) :: rec_result.1, rec_result.2.1, r.2.2.2 ++ rec_result.2.2)

/-- Model of `ImageViewer.update_images`: the status-label text, the text pushed
into the epoch form's images entry via `update_image_count` (both computed
from `len(self.image_paths)` before any decoding), and the result of the
`display_images` pass. -/
def update_images {α : Type} (decode : String → Option α) (scale : α → α)
    (cache : Cache α) (image_paths : List String) (all_loaded : Bool) :
    String × String × (List (String × α) × Cache α × List String) :=
  let label :=
    if all_loaded = false then
      "Too many images. Displaying " ++ toString MAX_IMAGES_TO_DISPLAY ++ " images."
    else
      "Total Images Found: " ++ toString image_paths.length
  (label, update_image_count image_paths.length,
    display_images decode scale cache image_paths)

/-! ### Theme loader -/

/-- Model of `MainWindow.import_theme`, with the dialog result (`None` models a
cancelled dialog, which skips the read) and `readFile` standing for
`open(file_path).read()` (`Except.error e` models a raised `OSError`).
Returns the window stylesheet after the call and the lines printed. A
successful read is applied as-is by `apply_custom_theme` with no content
validation. -/
def import_theme (file_path : Option String) (readFile : String → Except String String)
    (stylesheet : String) : String × List String :=
  match file_path with
  | none => (stylesheet, [])
  | some fp =>
    match readFile fp with
    | Except.ok custom_css => (custom_css, [])
    | Except.error e => (stylesheet, ["Error importing theme: " ++ e])

/-! ## Supporting lemmas -/

/-- Digit characters produced by `Nat.digitChar` on values below 10 satisfy
`Char.isDigit`. -/
lemma digitChar_isDigit (n : Nat) (h : n < 10) : (Nat.digitChar n).isDigit = true := by
  interval_cases n <;> decide

/-- Every character emitted by `natDecimalGo` is a decimal digit, provided
the accumulator only holds digits. -/
lemma natDecimalGo_digits (n : Nat) :
    ∀ acc : List Char, (∀ c ∈ acc, c.isDigit = true) →
      ∀ c ∈ natDecimalGo n acc, c.isDigit = true := by
  induction n using Nat.strong_induction_on with
  | _ n ih =>
    intro acc hacc c hc
    rw [natDecimalGo] at hc
    have hd : (Nat.digitChar (n % 10)).isDigit = true :=
      digitChar_isDigit _ (Nat.mod_lt _ (by omega))
    have hacc1 : ∀ c ∈ Nat.digitChar (n % 10) :: acc, c.isDigit = true := by
      intro c hc
      rcases List.mem_cons.mp hc with rfl | h
      · exact hd
      · exact hacc c h
    split at hc
    · exact hacc1 c hc
    · exact ih (n / 10) (Nat.div_lt_self (by omega) (by omega)) _ hacc1 c hc

/-- Every character of `natDecimal n` is a decimal digit. -/
lemma natDecimal_digits (n : Nat) : ∀ c ∈ natDecimal n, c.isDigit = true :=
  natDecimalGo_digits n [] (by intro c hc; cases hc)

/-- A string in "exactly two decimal places" form: an integer part free of
decimal points, a point, and exactly two digit characters. -/
def twoDecimalPlaces (s : String) : Prop :=
  ∃ intPart d1 d2, s = intPart ++ "." ++ String.mk [d1, d2] ∧
    d1.isDigit = true ∧ d2.isDigit = true ∧ '.' ∉ intPart.data

/-- Formatted doubles always have exactly two decimal places. -/
lemma fmtFixed2_twoDecimalPlaces (x : PyFloat) : twoDecimalPlaces (fmtFixed2 x) := by
  refine ⟨(if x.neg then "-" else "")
      ++ String.mk (natDecimal ((roundHalfEven (x.mag * 100)).toNat / 100)),
    Nat.digitChar ((roundHalfEven (x.mag * 100)).toNat / 10 % 10),
    Nat.digitChar ((roundHalfEven (x.mag * 100)).toNat % 10), ?_, ?_, ?_, ?_⟩
  · rw [fmtFixed2, String.append_assoc]
  · exact digitChar_isDigit _ (Nat.mod_lt _ (by omega))
  · exact digitChar_isDigit _ (Nat.mod_lt _ (by omega))
  · intro hmem
    rw [String.data_append] at hmem
    rcases List.mem_append.mp hmem with h | h
    · split at h <;> simp_all
    · have := natDecimal_digits ((roundHalfEven (x.mag * 100)).toNat / 100) '.' h
      simp at this

/-- A non-blank field whose text does not parse yields a parse failure. -/
lemma parseField_none {t : String} (d : Int) (h1 : t ≠ "") (h2 : pyInt t = none) :
    parseField t d = none := by
  rw [parseField, if_neg h1, h2]

/-! ## Claims about the epoch form -/

/-- C3: for positive parsed `images`, `repeats`, `batch` and any parsed
`steps` (a blank steps field parsing to the default 2000), the result
label shows `(steps * batch) / (images * repeats)` computed by
floating-point division — the exact quotient correctly rounded to a
binary64 double (`pyFloatDiv`) — and formatted with exactly two decimal
places. The magnitude bound keeps the statement inside the domain where
CPython's integer true division returns a float rather than raising
`OverflowError`, which is the domain the embedding models. -/
theorem C3_epoch_formula (images_text repeats_text batch_text steps_text : String)
    (images repeats batch steps : ℤ)
    (hi : parseField images_text 0 = some images)
    (hr : parseField repeats_text 0 = some repeats)
    (hb : parseField batch_text 0 = some batch)
    (hs : parseField steps_text 2000 = some steps)
    (hip : images > 0) (hrp : repeats > 0) (hbp : batch > 0)
    (hfin : |((steps * batch : ℤ) : ℚ) / ((images * repeats : ℤ) : ℚ)| < 2 ^ 1023) :
    calculate_epochs images_text repeats_text batch_text steps_text =
      "Optimal Epochs: " ++ fmtFixed2 (pyFloatDiv (steps * batch) (images * repeats)) ∧
    twoDecimalPlaces (fmtFixed2 (pyFloatDiv (steps * batch) (images * repeats))) := by
  constructor
  · rw [calculate_epochs, hi, hr, hb, hs]
    exact if_pos ⟨hip, hrp, hbp⟩
  · exact fmtFixed2_twoDecimalPlaces _

/-- Witness for C3 at images=100, repeats=2, batch=4, blank steps. -/
theorem C3_epoch_formula_witness :
    parseField "100" 0 = some 100 ∧ parseField "2" 0 = some 2 ∧
    parseField "4" 0 = some 4 ∧ parseField "" 2000 = some 2000 ∧
    |((2000 * 4 : ℤ) : ℚ) / ((100 * 2 : ℤ) : ℚ)| < 2 ^ 1023 ∧
    (calculate_epochs "100" "2" "4" "" =
        "Optimal Epochs: " ++ fmtFixed2 (pyFloatDiv (2000 * 4) (100 * 2)) ∧
      twoDecimalPlaces (fmtFixed2 (pyFloatDiv (2000 * 4) (100 * 2)))) :=
  ⟨rfl, rfl, rfl, rfl, by norm_num,
    C3_epoch_formula "100" "2" "4" "" 100 2 4 2000 rfl rfl rfl rfl
      (by decide) (by decide) (by decide) (by norm_num)⟩

/-- C4 counterexample: with images="0", repeats="1", batch="1" all parsing
(and images ≤ 0) but steps="abc", the claim predicts the "enter valid
positive integers" state, yet the code raises on the steps parse and shows
the parse-error state instead. -/
theorem C4_steps_parse_counterexample :
    parseField "0" 0 = some 0 ∧ parseField "1" 0 = some 1 ∧
    (0 : ℤ) ≤ 0 ∧
    calculate_epochs "0" "1" "1" "abc" = "Invalid input. Enter integers only." ∧
    calculate_epochs "0" "1" "1" "abc" ≠ "Enter valid positive integers." := by
  refine ⟨rfl, rfl, le_refl 0, rfl, ?_⟩
  decide

/-- C4 (amended): when images, repeats and batch parse (blank parsing
to 0), the steps field also parses (or is blank, defaulting to 2000), and
at least one of images/repeats/batch is ≤ 0, the result is the "enter
valid positive integers" state — in particular blank required fields route
into this branch, not the parse-error branch. -/
theorem C4_nonpositive_state (images_text repeats_text batch_text steps_text : String)
    (images repeats batch steps : ℤ)
    (hi : parseField images_text 0 = some images)
    (hr : parseField repeats_text 0 = some repeats)
    (hb : parseField batch_text 0 = some batch)
    (hs : parseField steps_text 2000 = some steps)
    (hnp : images ≤ 0 ∨ repeats ≤ 0 ∨ batch ≤ 0) :
    calculate_epochs images_text repeats_text batch_text steps_text =
      "Enter valid positive integers." := by
  rw [calculate_epochs, hi, hr, hb, hs]
  refine if_neg ?_
  rintro ⟨h1, h2, h3⟩
  rcases hnp with h | h | h <;> omega

/-- Witness for the amended C4 at all-blank fields (each defaulting
to 0, steps to 2000). -/
theorem C4_nonpositive_state_witness :
    parseField "" 0 = some 0 ∧ parseField "" 2000 = some 2000 ∧ (0 : ℤ) ≤ 0 ∧
    calculate_epochs "" "" "" "" = "Enter valid positive integers." :=
  ⟨rfl, rfl, le_refl 0,
    C4_nonpositive_state "" "" "" "" 0 0 0 2000 rfl rfl rfl rfl (Or.inl (le_refl 0))⟩

/-- C5: whenever any of the four fields holds non-blank text that does not
parse as an integer, the result is the "invalid input" state (the first
failing parse raises `ValueError`), and no computed number is shown. -/
theorem C5_invalid_input (images_text repeats_text batch_text steps_text : String)
    (h : (images_text ≠ "" ∧ pyInt images_text = none) ∨
         (repeats_text ≠ "" ∧ pyInt repeats_text = none) ∨
         (batch_text ≠ "" ∧ pyInt batch_text = none) ∨
         (steps_text ≠ "" ∧ pyInt steps_text = none)) :
    calculate_epochs images_text repeats_text batch_text steps_text =
      "Invalid input. Enter integers only." := by
  rcases h with ⟨h1, h2⟩ | ⟨h1, h2⟩ | ⟨h1, h2⟩ | ⟨h1, h2⟩
  · rw [calculate_epochs, parseField_none 0 h1 h2]
  · cases hit : parseField images_text 0 <;>
      simp [calculate_epochs, hit, parseField_none 0 h1 h2]
  · cases hit : parseField images_text 0 <;>
      cases hrt : parseField repeats_text 0 <;>
      simp [calculate_epochs, hit, hrt, parseField_none 0 h1 h2]
  · cases hit : parseField images_text 0 <;>
      cases hrt : parseField repeats_text 0 <;>
      cases hbt : parseField batch_text 0 <;>
      simp [calculate_epochs, hit, hrt, hbt, parseField_none 2000 h1 h2]

/-- Witness for C5 with non-integer text in the images field. -/
theorem C5_invalid_input_witness :
    ("12x" ≠ "" ∧ pyInt "12x" = none) ∧
    calculate_epochs "12x" "2" "4" "" = "Invalid input. Enter integers only." :=
  ⟨⟨by decide, rfl⟩,
    C5_invalid_input "12x" "2" "4" "" (Or.inl ⟨by decide, rfl⟩)⟩

/-! ## Claims about the directory scan and the folder resolver -/

/-- C1: writing `qualifying` for the image-named entries of the listing
joined onto the directory, a scan delivers the first 50 such paths in
listing order with the truncated flag true when more than 50 qualify, and
all of them with the truncated flag false otherwise (the emitted boolean
is `all_loaded`, whose negation is the truncated flag). -/
theorem C1_scan_cap (directory : String) (listing : List String) :
    (50 < ((listing.filter isImageFileName).map (fun f => osPathJoin directory f)).length →
      ImageLoaderThread_run directory listing =
        (((listing.filter isImageFileName).map (fun f => osPathJoin directory f)).take 50,
          false) ∧
      truncatedFlag (ImageLoaderThread_run directory listing) = true) ∧
    (((listing.filter isImageFileName).map (fun f => osPathJoin directory f)).length ≤ 50 →
      ImageLoaderThread_run directory listing =
        ((listing.filter isImageFileName).map (fun f => osPathJoin directory f), true) ∧
      truncatedFlag (ImageLoaderThread_run directory listing) = false) := by
  constructor
  · intro h
    have heq : ImageLoaderThread_run directory listing =
        (((listing.filter isImageFileName).map (fun f => osPathJoin directory f)).take 50,
          false) := by
      unfold ImageLoaderThread_run MAX_IMAGES_TO_DISPLAY
      exact if_pos h
    exact ⟨heq, by rw [truncatedFlag, heq]; rfl⟩
  · intro h
    have heq : ImageLoaderThread_run directory listing =
        ((listing.filter isImageFileName).map (fun f => osPathJoin directory f), true) := by
      unfold ImageLoaderThread_run MAX_IMAGES_TO_DISPLAY
      exact if_neg (by omega)
    exact ⟨heq, by rw [truncatedFlag, heq]; rfl⟩

/-- Witness for C1: a listing with 60 qualifying names is truncated to the
first 50 with the truncated flag true; a listing with 12 qualifying names
(and one non-qualifying) is delivered whole with the flag false. -/
theorem C1_scan_cap_witness :
    (50 < ((((List.range 60).map (fun i => "f" ++ toString i ++ ".png")).filter
        isImageFileName).map (fun f => osPathJoin "d" f)).length ∧
      ImageLoaderThread_run "d" ((List.range 60).map (fun i => "f" ++ toString i ++ ".png")) =
        (((((List.range 60).map (fun i => "f" ++ toString i ++ ".png")).filter
            isImageFileName).map (fun f => osPathJoin "d" f)).take 50, false) ∧
      truncatedFlag
        (ImageLoaderThread_run "d"
          ((List.range 60).map (fun i => "f" ++ toString i ++ ".png"))) = true) ∧
    ((((("notes.txt" :: (List.range 12).map (fun i => "g" ++ toString i ++ ".jpg")).filter
        isImageFileName).map (fun f => osPathJoin "d" f)).length ≤ 50) ∧
      ImageLoaderThread_run "d"
          ("notes.txt" :: (List.range 12).map (fun i => "g" ++ toString i ++ ".jpg")) =
        ((("notes.txt" :: (List.range 12).map (fun i => "g" ++ toString i ++ ".jpg")).filter
            isImageFileName).map (fun f => osPathJoin "d" f), true) ∧
      truncatedFlag
        (ImageLoaderThread_run "d"
          ("notes.txt" :: (List.range 12).map (fun i => "g" ++ toString i ++ ".jpg"))) =
          false) :=
  ⟨⟨by decide,
    (C1_scan_cap "d" ((List.range 60).map (fun i => "f" ++ toString i ++ ".png"))).1
      (by decide)⟩,
   ⟨by decide,
    (C1_scan_cap "d"
        ("notes.txt" :: (List.range 12).map (fun i => "g" ++ toString i ++ ".jpg"))).2
      (by decide)⟩⟩

/-- C2, evaluated at a failing input: for a chosen directory
`/data/photos` whose listing holds a subdirectory named `Dataset` (with
the script located at `/app/src`), the resolver offers exactly
`["Dataset"]`, but confirming that choice scans
`/app/src/Dataset` — the selected name joined onto `SCRIPT_DIR` — which is
not the chosen subdirectory `/data/photos/Dataset`. -/
theorem C2_scans_script_dir_subdir :
    find_matching_dataset_dirs
        [⟨"Dataset", true⟩, ⟨"holiday", true⟩, ⟨"notes.txt", false⟩] = ["Dataset"] ∧
    on_directory_selected "/app/src" "Dataset" = "/app/src/Dataset" ∧
    osPathJoin "/data/photos" "Dataset" = "/data/photos/Dataset" ∧
    on_directory_selected "/app/src" "Dataset" ≠ osPathJoin "/data/photos" "Dataset" := by
  refine ⟨rfl, rfl, rfl, ?_⟩
  decide

/-! ## Cache lemmas -/

/-- Looking up the key just appended to a cache that missed it finds the
appended value. -/
lemma cacheLookup_append_self {α : Type} (cache : Cache α) (p : String)
    (px : QPixmap α) (h : cacheLookup cache p = none) :
    cacheLookup (cache ++ [(p, px)]) p = some px := by
  induction cache with
  | nil => simp [cacheLookup]
  | cons e rest ih =>
    rw [cacheLookup] at h
    rcases e with ⟨q, v⟩
    by_cases hq : q = p
    · rw [if_pos hq] at h
      cases h
    · rw [if_neg hq] at h
      rw [List.cons_append, cacheLookup, if_neg hq]
      exact ih h

/-- Appending an entry to a cache preserves every lookup that already
succeeded. -/
lemma cacheLookup_append_mono {α : Type} (cache : Cache α) (entry : String × QPixmap α)
    (q : String) (v : QPixmap α) (h : cacheLookup cache q = some v) :
    cacheLookup (cache ++ [entry]) q = some v := by
  induction cache with
  | nil => cases h
  | cons e rest ih =>
    rcases e with ⟨q1, v1⟩
    rw [cacheLookup] at h
    by_cases hq : q1 = q
    · rw [if_pos hq] at h
      rw [List.cons_append, cacheLookup, if_pos hq]
      exact h
    · rw [if_neg hq] at h
      rw [List.cons_append, cacheLookup, if_neg hq]
      exact ih h

/-- A successful lookup in a cache extended with one appended entry comes
either from the original cache or is the appended entry itself. -/
lemma cacheLookup_append_cases {α : Type} (cache : Cache α) (p : String)
    (px : QPixmap α) (q : String) (v : QPixmap α)
    (h : cacheLookup (cache ++ [(p, px)]) q = some v) :
    cacheLookup cache q = some v ∨ (q = p ∧ v = px) := by
  induction cache with
  | nil =>
    rw [List.nil_append, cacheLookup] at h
    split at h
    · cases h
      rename_i hq
      exact Or.inr ⟨hq.symm, rfl⟩
    · cases h
  | cons e rest ih =>
    rcases e with ⟨q1, v1⟩
    rw [List.cons_append, cacheLookup] at h
    by_cases hq : q1 = q
    · rw [if_pos hq] at h
      rw [cacheLookup, if_pos hq]
      exact Or.inl h
    · rw [if_neg hq] at h
      rw [cacheLookup, if_neg hq]
      exact ih h

/-- A `load_and_cache_image` call never removes or overwrites a cache
entry: every lookup that succeeded before the call succeeds with the same
value after it. -/
lemma load_and_cache_image_mono {α : Type} (decode : String → Option α) (scale : α → α)
    (cache : Cache α) (p q : String) (v : QPixmap α)
    (h : cacheLookup cache q = some v) :
    cacheLookup (load_and_cache_image decode scale cache p).2.1 q = some v := by
  rw [load_and_cache_image]
  cases hl : cacheLookup cache p with
  | some px => exact h
  | none =>
    cases hd : decode p with
    | none => exact h
    | some img => exact cacheLookup_append_mono cache _ q v h

/-! ## Claims about the thumbnail cache -/

/-- C6: after a first successful decode of a path (a cache miss followed
by `decode = some img`), the entry is stored; a second request returns the
stored pixmap from the cache with zero further decode operations and an
unchanged cache; and no call ever removes or invalidates an existing
entry. -/
theorem C6_cache_hit_no_redecode {α : Type} (decode : String → Option α) (scale : α → α)
    (cache : Cache α) (p : String) (img : α)
    (hmiss : cacheLookup cache p = none) (hdec : decode p = some img) :
    load_and_cache_image decode scale cache p =
      (QPixmap.pix (scale img), cache ++ [(p, QPixmap.pix (scale img))], 1, []) ∧
    load_and_cache_image decode scale (cache ++ [(p, QPixmap.pix (scale img))]) p =
      (QPixmap.pix (scale img), cache ++ [(p, QPixmap.pix (scale img))], 0, []) ∧
    (∀ (c : Cache α) (p' q : String) (v : QPixmap α), cacheLookup c q = some v →
      cacheLookup (load_and_cache_image decode scale c p').2.1 q = some v) := by
  refine ⟨?_, ?_, fun c p' q v h => load_and_cache_image_mono decode scale c p' q v h⟩
  · rw [load_and_cache_image, hmiss, hdec]
  · rw [load_and_cache_image, cacheLookup_append_self cache p _ hmiss]

/-- Witness for C6 with a one-element path decode on an empty cache. -/
theorem C6_cache_hit_no_redecode_witness :
    cacheLookup ([] : Cache Nat) "a.png" = none ∧
    (fun _ => some 7 : String → Option Nat) "a.png" = some 7 ∧
    load_and_cache_image (fun _ => some 7) id ([] : Cache Nat) "a.png" =
      (QPixmap.pix (id 7), [] ++ [("a.png", QPixmap.pix (id 7))], 1, []) ∧
    load_and_cache_image (fun _ => some 7) id ([] ++ [("a.png", QPixmap.pix (id 7))]) "a.png" =
      (QPixmap.pix (id 7), [] ++ [("a.png", QPixmap.pix (id 7))], 0, []) :=
  ⟨rfl, rfl,
    (C6_cache_hit_no_redecode (fun _ => some 7) id [] "a.png" 7 rfl rfl).1,
    (C6_cache_hit_no_redecode (fun _ => some 7) id [] "a.png" 7 rfl rfl).2.1⟩

/-- C9: a failed decode inserts nothing — the call returns the null pixmap
with the cache unchanged (logging one line), so an immediately repeated
request decodes again; and any call preserves the invariant that the cache
maps paths only to non-null pixmaps. -/
theorem C9_failure_not_cached {α : Type} (decode : String → Option α) (scale : α → α)
    (cache : Cache α) (p : String)
    (hmiss : cacheLookup cache p = none) (hdec : decode p = none) :
    load_and_cache_image decode scale cache p =
      (QPixmap.null, cache, 1, ["Error loading image " ++ p ++ ": Failed to load image"]) ∧
    (load_and_cache_image decode scale
        (load_and_cache_image decode scale cache p).2.1 p).2.2.1 = 1 ∧
    (∀ (decode' : String → Option α) (c : Cache α) (p' : String),
      (∀ q v, cacheLookup c q = some v → v ≠ QPixmap.null) →
      ∀ q v, cacheLookup (load_and_cache_image decode' scale c p').2.1 q = some v →
        v ≠ QPixmap.null) := by
  have hfirst : load_and_cache_image decode scale cache p =
      (QPixmap.null, cache, 1, ["Error loading image " ++ p ++ ": Failed to load image"]) := by
    rw [load_and_cache_image, hmiss, hdec]
  refine ⟨hfirst, ?_, ?_⟩
  · rw [hfirst, load_and_cache_image, hmiss, hdec]
  · intro decode' c p' hinv q v h
    rw [load_and_cache_image] at h
    cases hl : cacheLookup c p' with
    | some px =>
      rw [hl] at h
      exact hinv q v h
    | none =>
      rw [hl] at h
      cases hd : decode' p' with
      | none =>
        rw [hd] at h
        exact hinv q v h
      | some img =>
        rw [hd] at h
        rcases cacheLookup_append_cases c p' _ q v h with hold | ⟨hqp, hnew⟩
        · exact hinv q v hold
        · rw [hnew]
          intro hcon
          cases hcon

/-- Witness for C9 with a decode that always fails, on an empty cache. -/
theorem C9_failure_not_cached_witness :
    cacheLookup ([] : Cache Nat) "bad.png" = none ∧
    (fun _ => none : String → Option Nat) "bad.png" = none ∧
    load_and_cache_image (fun _ => none) id ([] : Cache Nat) "bad.png" =
      (QPixmap.null, [], 1, ["Error loading image " ++ "bad.png" ++ ": Failed to load image"]) ∧
    (load_and_cache_image (fun _ => none) id
        (load_and_cache_image (fun _ => none) id ([] : Cache Nat) "bad.png").2.1
        "bad.png").2.2.1 = 1 :=
  ⟨rfl, rfl,
    (C9_failure_not_cached (fun _ => none) id [] "bad.png" rfl rfl).1,
    (C9_failure_not_cached (fun _ => none) id [] "bad.png" rfl rfl).2.1⟩

/-! ## Grid rendering -/

/-- Consistency of the cache with the decode oracle: every stored entry is
the scaled pixmap of a successful decode of its key. The empty cache is
consistent, and rendering passes preserve consistency. -/
def CacheConsistent {α : Type} (decode : String → Option α) (scale : α → α)
    (cache : Cache α) : Prop :=
  ∀ p px, cacheLookup cache p = some px →
    ∃ img, decode p = some img ∧ px = QPixmap.pix (scale img)

/-- Extending a consistent cache with the scaled pixmap of a successful
decode keeps it consistent. -/
lemma CacheConsistent_append {α : Type} {decode : String → Option α} {scale : α → α}
    {cache : Cache α} (hc : CacheConsistent decode scale cache)
    {p : String} {img : α} (hdec : decode p = some img) :
    CacheConsistent decode scale (cache ++ [(p, QPixmap.pix (scale img))]) := by
  intro q v h
  rcases cacheLookup_append_cases cache p _ q v h with hold | ⟨hqp, hv⟩
  · exact hc q v hold
  · subst hqp
    exact ⟨img, hdec, hv⟩

/-- Behaviour of one `load_and_cache_image` call against a consistent
cache: a decodable path yields its scaled pixmap, a consistent cache and
no log line; an undecodable path yields the null pixmap, the unchanged
cache and one log line. -/
lemma load_and_cache_image_spec {α : Type} (decode : String → Option α) (scale : α → α)
    (cache : Cache α) (p : String) (hc : CacheConsistent decode scale cache) :
    (∀ img, decode p = some img →
      (load_and_cache_image decode scale cache p).1 = QPixmap.pix (scale img) ∧
      CacheConsistent decode scale (load_and_cache_image decode scale cache p).2.1 ∧
      (load_and_cache_image decode scale cache p).2.2.2 = []) ∧
    (decode p = none →
      load_and_cache_image decode scale cache p =
        (QPixmap.null, cache, 1, ["Error loading image " ++ p ++ ": Failed to load image"])) := by
  constructor
  · intro img hdec
    rw [load_and_cache_image]
    cases hl : cacheLookup cache p with
    | some px =>
      obtain ⟨img1, hdec1, hpx⟩ := hc p px hl
      rw [hdec] at hdec1
      cases hdec1
      exact ⟨hpx, hc, rfl⟩
    | none =>
      rw [hdec]
      exact ⟨rfl, CacheConsistent_append hc hdec, rfl⟩
  · intro hdec
    have hl : cacheLookup cache p = none := by
      cases hl : cacheLookup cache p with
      | none => rfl
      | some px =>
        obtain ⟨img1, hdec1, _⟩ := hc p px hl
        rw [hdec] at hdec1
        cases hdec1
    rw [load_and_cache_image, hl, hdec]

/-- The filter by decode success and the filter by decode failure
partition a path list. -/
lemma length_filter_isSome_add_isNone {α : Type} (decode : String → Option α)
    (l : List String) :
    (l.filter (fun p => (decode p).isSome)).length
      + (l.filter (fun p => (decode p).isNone)).length = l.length := by
  induction l with
  | nil => simp
  | cons p rest ih =>
    cases hd : decode p <;> simp [List.filter_cons, hd] <;> omega

/-- Counting a rendering pass against a consistent cache: the grid gets
one entry per path whose decode succeeds, and one log line is printed per
path whose decode fails. -/
lemma display_images_counts {α : Type} (decode : String → Option α) (scale : α → α) :
    ∀ (paths : List String) (cache : Cache α), CacheConsistent decode scale cache →
      (display_images decode scale cache paths).1.length
        = (paths.filter (fun p => (decode p).isSome)).length ∧
      (display_images decode scale cache paths).2.2.length
        = (paths.filter (fun p => (decode p).isNone)).length := by
  intro paths
  induction paths with
  | nil =>
    intro cache hc
    simp [display_images]
  | cons p rest ih =>
    intro cache hc
    obtain ⟨hsome, hnone⟩ := load_and_cache_image_spec decode scale cache p hc
    cases hd : decode p with
    | none =>
      have heq := hnone hd
      obtain ⟨ih1, ih2⟩ := ih cache hc
      constructor
      · simp only [display_images, heq, List.filter_cons, hd]
        simpa using ih1
      · simp [display_images, heq, List.filter_cons, hd]
        omega
    | some img =>
      obtain ⟨h1, h2, h3⟩ := hsome img hd
      obtain ⟨ih1, ih2⟩ := ih _ h2
      constructor
      · simp only [display_images, h1, h3, List.filter_cons, hd]
        simpa using ih1
      · simp only [display_images, h1, h3, List.filter_cons, hd]
        simpa using ih2

/-- C7: rendering a path list in which exactly one entry fails to decode
(against a consistent cache, e.g. an empty one) produces a grid with
exactly one fewer entry than the path count; the failure only prints one
log line, and the pass returns normally with no error surfaced. -/
theorem C7_undecodable_skipped {α : Type} (decode : String → Option α) (scale : α → α)
    (cache : Cache α) (paths : List String)
    (hc : CacheConsistent decode scale cache)
    (hone : (paths.filter (fun p => (decode p).isNone)).length = 1) :
    (display_images decode scale cache paths).1.length = paths.length - 1 ∧
    (display_images decode scale cache paths).2.2.length = 1 := by
  obtain ⟨h1, h2⟩ := display_images_counts decode scale paths cache hc
  have hpart := length_filter_isSome_add_isNone decode paths
  constructor
  · rw [h1]
    omega
  · rw [h2, hone]

/-- Witness for C7: one undecodable path among three, empty cache. -/
theorem C7_undecodable_skipped_witness :
    CacheConsistent (fun p => if p = "bad.png" then none else some (0 : Nat)) id
      ([] : Cache Nat) ∧
    (["a.png", "bad.png", "b.png"].filter
        (fun p => ((fun p => if p = "bad.png" then none else some (0 : Nat)) p).isNone)).length
      = 1 ∧
    (display_images (fun p => if p = "bad.png" then none else some (0 : Nat)) id
        ([] : Cache Nat) ["a.png", "bad.png", "b.png"]).1.length
      = ["a.png", "bad.png", "b.png"].length - 1 :=
  ⟨(by intro p px h; simp [cacheLookup] at h), by decide,
    (C7_undecodable_skipped (fun p => if p = "bad.png" then none else some (0 : Nat)) id
        [] ["a.png", "bad.png", "b.png"] ((by intro p px h; simp [cacheLookup] at h)) (by decide)).1⟩

/-- C10: for a delivered scan result, the text pushed into the epoch
form's images entry is the decimal string of the delivered path-list
length (computed before decoding, hence independent of decode failures);
the status label shows the same count — the full-set text when
`all_loaded`, and the 50-image truncation text (with the list length then
being exactly 50) otherwise — while the grid renders only the paths whose
decode succeeds. -/
theorem C10_count_is_list_length {α : Type} (decode : String → Option α) (scale : α → α)
    (cache : Cache α) (directory : String) (listing : List String)
    (paths : List String) (all_loaded : Bool)
    (hrun : ImageLoaderThread_run directory listing = (paths, all_loaded))
    (hc : CacheConsistent decode scale cache) :
    (update_images decode scale cache paths all_loaded).2.1 = toString paths.length ∧
    (all_loaded = true →
      (update_images decode scale cache paths all_loaded).1 =
        "Total Images Found: " ++ toString paths.length) ∧
    (all_loaded = false →
      (update_images decode scale cache paths all_loaded).1 =
        "Too many images. Displaying 50 images." ∧ paths.length = 50) ∧
    (update_images decode scale cache paths all_loaded).2.2.1.length =
      (paths.filter (fun p => (decode p).isSome)).length := by
  refine ⟨rfl, ?_, ?_, (display_images_counts decode scale paths cache hc).1⟩
  · intro h
    rw [update_images, h]
    rfl
  · intro h
    subst h
    refine ⟨rfl, ?_⟩
    simp only [ImageLoaderThread_run, MAX_IMAGES_TO_DISPLAY] at hrun
    split at hrun
    · rename_i hgt
      injection hrun with h1 h2
      subst h1
      rw [List.length_take]
      omega
    · injection hrun with h1 h2
      cases h2

/-- Witness for C10: a scan of three listing entries of which two qualify,
with one of the two then failing to decode: the images entry and the label
still report 2, while the grid renders 1. -/
theorem C10_count_is_list_length_witness :
    ImageLoaderThread_run "d" ["a.png", "b.png", "x.txt"] = (["d/a.png", "d/b.png"], true) ∧
    CacheConsistent (fun p => if p = "d/b.png" then none else some (0 : Nat)) id
      ([] : Cache Nat) ∧
    (update_images (fun p => if p = "d/b.png" then none else some (0 : Nat)) id
        ([] : Cache Nat) ["d/a.png", "d/b.png"] true).2.1
      = toString (["d/a.png", "d/b.png"].length) ∧
    (update_images (fun p => if p = "d/b.png" then none else some (0 : Nat)) id
        ([] : Cache Nat) ["d/a.png", "d/b.png"] true).2.2.1.length
      = (["d/a.png", "d/b.png"].filter
          (fun p => ((fun p => if p = "d/b.png" then none else some (0 : Nat)) p).isSome)).length :=
  ⟨rfl, (by intro p px h; simp [cacheLookup] at h),
    (C10_count_is_list_length (fun p => if p = "d/b.png" then none else some (0 : Nat)) id
        [] "d" ["a.png", "b.png", "x.txt"] ["d/a.png", "d/b.png"] true rfl
        ((by intro p px h; simp [cacheLookup] at h))).1,
    (C10_count_is_list_length (fun p => if p = "d/b.png" then none else some (0 : Nat)) id
        [] "d" ["a.png", "b.png", "x.txt"] ["d/a.png", "d/b.png"] true rfl
        ((by intro p px h; simp [cacheLookup] at h))).2.2.2⟩

/-! ## Claim about the theme loader -/

/-- C8: a failed stylesheet read leaves the window stylesheet unchanged
and only logs the error, while a successful read applies the file's text
as the stylesheet verbatim, with no content validation. -/
theorem C8_theme_import (file_path : String) (readFile : String → Except String String)
    (stylesheet : String) :
    (∀ e, readFile file_path = Except.error e →
      import_theme (some file_path) readFile stylesheet =
        (stylesheet, ["Error importing theme: " ++ e])) ∧
    (∀ custom_css, readFile file_path = Except.ok custom_css →
      import_theme (some file_path) readFile stylesheet = (custom_css, [])) := by
  constructor
  · intro e h
    rw [import_theme, h]
  · intro custom_css h
    rw [import_theme, h]

/-- Witness for C8: one failing read and one successful read of arbitrary
text. -/
theorem C8_theme_import_witness :
    (fun _ => Except.error "read failed" : String → Except String String) "t.css"
        = Except.error "read failed" ∧
    import_theme (some "t.css") (fun _ => Except.error "read failed") "old-style" =
      ("old-style", ["Error importing theme: " ++ "read failed"]) ∧
    (fun _ => Except.ok "QLabel color: red" : String → Except String String) "t.css"
        = Except.ok "QLabel color: red" ∧
    import_theme (some "t.css") (fun _ => Except.ok "QLabel color: red") "old-style" =
      ("QLabel color: red", []) :=
  ⟨rfl,
    (C8_theme_import "t.css" (fun _ => Except.error "read failed") "old-style").1
      "read failed" rfl,
    rfl,
    (C8_theme_import "t.css" (fun _ => Except.ok "QLabel color: red") "old-style").2
      "QLabel color: red" rfl⟩

end EpochCalc
